import Mathlib

/-!
Verification of the tracing instrumentation shims for `boa` and `conda-build`
(`opentelemetry-instrumentation-boa` and `opentelemetry-instrumentation-conda-build`).

The two Python modules monkey-patch named callables on the build tools' modules
with span-producing wrappers.  We embed:

* the observable tracing behaviour (span start/end events, exception recording,
  call events carrying the exact arguments) as explicit event traces;
* the module attribute tables and the patch/unpatch operations
  (`wrapt.wrap_function_wrapper` and `opentelemetry.instrumentation.utils.unwrap`);
* the two instrumentors' `_instrument` / `_uninstrument` bodies.

Collaborator operations whose code is not part of the two source files
(the wrapt proxy, `unwrap`, the tracer's `start_span` /
`start_as_current_span` context manager, and the trace-context propagator)
are modelled from the specification's contracts; each such definition carries a
doc comment starting with "Modelled from the spec:".
-/

namespace CondaOtel

/-- A Python exception value: its type name and its message. -/
structure Exc where
  ty : String
  msg : String
deriving DecidableEq, Repr

/-- Outcome of a Python call: a normal return value or a raised exception. -/
inductive Outcome where
  | ok (v : Nat)
  | exn (e : Exc)
deriving DecidableEq, Repr

/-- Span kinds (`opentelemetry.trace.SpanKind`); the sources only use INTERNAL. -/
inductive SpanKind where
  | internal
  | server
  | client
deriving DecidableEq, Repr

/-- The parent of a span: none at all, a remote trace-parent extracted from a
carrier, or a local in-process span. -/
inductive Parent where
  | detached
  | remote (tp : String)
  | span (sid : Nat)
deriving DecidableEq, Repr

/-- Observable tracing events, in the order they happen. -/
inductive Event where
  | startSpan (sid : Nat) (name : String) (kind : SpanKind) (parent : Parent)
  | endSpan (sid : Nat) (errored : Bool)
  | recordException (sid : Nat) (ty msg : String)
  | setAttribute (sid : Nat) (key value : String)
  | callOriginal (args : List Nat) (kwargs : List (String × Nat))
deriving DecidableEq, Repr

/-- Tracer-side state threaded through a call: the next fresh span id, the
stack of currently-active (ambient) span ids, whether spans are recording, and
the event log. -/
structure TraceState where
  nextId : Nat
  ambient : List Nat
  recording : Bool
  events : List Event
deriving DecidableEq, Repr

/-- The ambient active span, as a `Parent`: the top of the current-span stack
if one exists, otherwise no parent. -/
def ambientParent (s : TraceState) : Parent :=
  match s.ambient with
  | [] => .detached
  | a :: _ => .span a

/-- Modelled from the spec: `Span.isRecording() -> bool`, the tracing
collaborator's recording flag (uniform across spans of one tracer here). -/
def isRecording (s : TraceState) (_sid : Nat) : Bool :=
  s.recording

/-- Modelled from the spec: `tracer.start_as_current_span(name, kind)` used as a
context manager.  It starts a span implicitly parented to the ambient active
span if one exists, makes it current for the duration of the body, and ends it
exactly once on every exit path: on normal return it ends the span and returns
the result unchanged; on failure it records the failure on the span (error
status), ends the span, then re-raises the same failure unchanged. -/
def startAsCurrentSpan (name : String) (kind : SpanKind)
    (body : Nat → TraceState → Outcome × TraceState) (s : TraceState) :
    Outcome × TraceState :=
  let sid := s.nextId
  let s1 : TraceState :=
    { s with
      nextId := s.nextId + 1
      ambient := sid :: s.ambient
      events := s.events ++ [.startSpan sid name kind (ambientParent s)] }
  let r := body sid s1
  let s3 : TraceState := { r.2 with ambient := s.ambient }
  match r.1 with
  | .ok v => (.ok v, { s3 with events := s3.events ++ [.endSpan sid false] })
  | .exn e =>
      (.exn e,
       { s3 with events := s3.events ++ [.recordException sid e.ty e.msg, .endSpan sid true] })

/-- A wrapped original callable: a function of the positional and keyword
arguments, returning an outcome. -/
def Original : Type :=
  List Nat → List (String × Nat) → Outcome

/-- Invoking a callable with `*args, **kwargs` records one call event carrying
the exact (untransformed) arguments, and yields the callable's outcome. -/
def invokeOriginal (f : Original) (args : List Nat) (kwargs : List (String × Nat))
    (s : TraceState) : Outcome × TraceState :=
  (f args kwargs, { s with events := s.events ++ [.callOriginal args kwargs] })

namespace CondaBuild

/-- Function `_wrap_render` of the conda-build module: span "conda_build.api.render",
kind INTERNAL; the `is_recording` branch contains only `pass` (both
`set_attribute` lines are commented out in the source). -/
def _wrap_render (wrapped : Original) (_inst : Nat) (args : List Nat)
    (kwargs : List (String × Nat)) (s : TraceState) : Outcome × TraceState :=
  startAsCurrentSpan "conda_build.api.render" .internal
    (fun span s1 =>
      let s2 := if isRecording s1 span then s1 else s1
      invokeOriginal wrapped args kwargs s2) s

/-- Function `_wrap_build` of the conda-build module: span "conda_build.api.build",
kind INTERNAL; the `is_recording` branch contains only `pass`. -/
def _wrap_build (wrapped : Original) (_inst : Nat) (args : List Nat)
    (kwargs : List (String × Nat)) (s : TraceState) : Outcome × TraceState :=
  startAsCurrentSpan "conda_build.api.build" .internal
    (fun span s1 =>
      let s2 := if isRecording s1 span then s1 else s1
      invokeOriginal wrapped args kwargs s2) s

/-- Function `_wrap_get_contents`: span "conda_build.MetaData._get_contents"; the whole
`is_recording` block is commented out in the source. -/
def _wrap_get_contents (wrapped : Original) (_inst : Nat) (args : List Nat)
    (kwargs : List (String × Nat)) (s : TraceState) : Outcome × TraceState :=
  startAsCurrentSpan "conda_build.MetaData._get_contents" .internal
    (fun _span s1 => invokeOriginal wrapped args kwargs s1) s

/-- Function `_wrap_parse_again`: span "conda_build.MetaData.parse_again". -/
def _wrap_parse_again (wrapped : Original) (_inst : Nat) (args : List Nat)
    (kwargs : List (String × Nat)) (s : TraceState) : Outcome × TraceState :=
  startAsCurrentSpan "conda_build.MetaData.parse_again" .internal
    (fun _span s1 => invokeOriginal wrapped args kwargs s1) s

/-- Function `_wrap_get_recipe_text`: span "conda_build.MetaData.get_recipe_text". -/
def _wrap_get_recipe_text (wrapped : Original) (_inst : Nat) (args : List Nat)
    (kwargs : List (String × Nat)) (s : TraceState) : Outcome × TraceState :=
  startAsCurrentSpan "conda_build.MetaData.get_recipe_text" .internal
    (fun _span s1 => invokeOriginal wrapped args kwargs s1) s

/-- Function `_wrap_get_output_metadata`: span "conda_build.MetaData.get_output_metadata". -/
def _wrap_get_output_metadata (wrapped : Original) (_inst : Nat) (args : List Nat)
    (kwargs : List (String × Nat)) (s : TraceState) : Outcome × TraceState :=
  startAsCurrentSpan "conda_build.MetaData.get_output_metadata" .internal
    (fun _span s1 => invokeOriginal wrapped args kwargs s1) s

/-- Function `_wrap_get_used_vars`: span "conda_build.MetaData.get_used_vars". -/
def _wrap_get_used_vars (wrapped : Original) (_inst : Nat) (args : List Nat)
    (kwargs : List (String × Nat)) (s : TraceState) : Outcome × TraceState :=
  startAsCurrentSpan "conda_build.MetaData.get_used_vars" .internal
    (fun _span s1 => invokeOriginal wrapped args kwargs s1) s

/-- Function `_wrap_get_env_dependencies`: span "conda_build.render.get_env_dependencies". -/
def _wrap_get_env_dependencies (wrapped : Original) (_inst : Nat) (args : List Nat)
    (kwargs : List (String × Nat)) (s : TraceState) : Outcome × TraceState :=
  startAsCurrentSpan "conda_build.render.get_env_dependencies" .internal
    (fun _span s1 => invokeOriginal wrapped args kwargs s1) s

/-- Function `_wrap_execute_download_actions`: span
"conda_build.render.execute_download_actions". -/
def _wrap_execute_download_actions (wrapped : Original) (_inst : Nat) (args : List Nat)
    (kwargs : List (String × Nat)) (s : TraceState) : Outcome × TraceState :=
  startAsCurrentSpan "conda_build.render.execute_download_actions" .internal
    (fun _span s1 => invokeOriginal wrapped args kwargs s1) s

/-- Function `_wrap_get_upstream_pins`: span "conda_build.render.get_upstream_pins". -/
def _wrap_get_upstream_pins (wrapped : Original) (_inst : Nat) (args : List Nat)
    (kwargs : List (String × Nat)) (s : TraceState) : Outcome × TraceState :=
  startAsCurrentSpan "conda_build.render.get_upstream_pins" .internal
    (fun _span s1 => invokeOriginal wrapped args kwargs s1) s

/-- Function `_wrap_add_upstream_pins`: span "conda_build.render.add_upstream_pins". -/
def _wrap_add_upstream_pins (wrapped : Original) (_inst : Nat) (args : List Nat)
    (kwargs : List (String × Nat)) (s : TraceState) : Outcome × TraceState :=
  startAsCurrentSpan "conda_build.render.add_upstream_pins" .internal
    (fun _span s1 => invokeOriginal wrapped args kwargs s1) s

/-- Function `_wrap_finalize_metadata`: span "conda_build.render.finalize_metadata". -/
def _wrap_finalize_metadata (wrapped : Original) (_inst : Nat) (args : List Nat)
    (kwargs : List (String × Nat)) (s : TraceState) : Outcome × TraceState :=
  startAsCurrentSpan "conda_build.render.finalize_metadata" .internal
    (fun _span s1 => invokeOriginal wrapped args kwargs s1) s

end CondaBuild

namespace Boa

/-- Function `_wrap_render` of the boa module: span "boa.api.render", kind INTERNAL;
the `is_recording` branch contains only `pass`. -/
def _wrap_render (wrapped : Original) (_inst : Nat) (args : List Nat)
    (kwargs : List (String × Nat)) (s : TraceState) : Outcome × TraceState :=
  startAsCurrentSpan "boa.api.render" .internal
    (fun span s1 =>
      let s2 := if isRecording s1 span then s1 else s1
      invokeOriginal wrapped args kwargs s2) s

/-- Function `_wrap_build` of the boa module: span "boa.api.build", kind INTERNAL;
the `is_recording` branch contains only `pass`. -/
def _wrap_build (wrapped : Original) (_inst : Nat) (args : List Nat)
    (kwargs : List (String × Nat)) (s : TraceState) : Outcome × TraceState :=
  startAsCurrentSpan "boa.api.build" .internal
    (fun span s1 =>
      let s2 := if isRecording s1 span then s1 else s1
      invokeOriginal wrapped args kwargs s2) s

end Boa

/-- The fourteen wrapper functions defined across the two modules (twelve for
conda-build, two for boa). -/
inductive WrapperId where
  | render
  | build
  | getContents
  | parseAgain
  | getRecipeText
  | getOutputMetadata
  | getUsedVars
  | getEnvDependencies
  | executeDownloadActions
  | getUpstreamPins
  | addUpstreamPins
  | finalizeMetadata
  | boaRender
  | boaBuild
deriving DecidableEq, Repr, Fintype

/-- Dispatch from a wrapper id to the wrapper function it names. -/
def wrapperOf : WrapperId → Original → Nat → List Nat → List (String × Nat) →
    TraceState → Outcome × TraceState
  | .render => CondaBuild._wrap_render
  | .build => CondaBuild._wrap_build
  | .getContents => CondaBuild._wrap_get_contents
  | .parseAgain => CondaBuild._wrap_parse_again
  | .getRecipeText => CondaBuild._wrap_get_recipe_text
  | .getOutputMetadata => CondaBuild._wrap_get_output_metadata
  | .getUsedVars => CondaBuild._wrap_get_used_vars
  | .getEnvDependencies => CondaBuild._wrap_get_env_dependencies
  | .executeDownloadActions => CondaBuild._wrap_execute_download_actions
  | .getUpstreamPins => CondaBuild._wrap_get_upstream_pins
  | .addUpstreamPins => CondaBuild._wrap_add_upstream_pins
  | .finalizeMetadata => CondaBuild._wrap_finalize_metadata
  | .boaRender => Boa._wrap_render
  | .boaBuild => Boa._wrap_build

/-- The span name each wrapper passes to `start_as_current_span`. -/
def wrapperSpanName : WrapperId → String
  | .render => "conda_build.api.render"
  | .build => "conda_build.api.build"
  | .getContents => "conda_build.MetaData._get_contents"
  | .parseAgain => "conda_build.MetaData.parse_again"
  | .getRecipeText => "conda_build.MetaData.get_recipe_text"
  | .getOutputMetadata => "conda_build.MetaData.get_output_metadata"
  | .getUsedVars => "conda_build.MetaData.get_used_vars"
  | .getEnvDependencies => "conda_build.render.get_env_dependencies"
  | .executeDownloadActions => "conda_build.render.execute_download_actions"
  | .getUpstreamPins => "conda_build.render.get_upstream_pins"
  | .addUpstreamPins => "conda_build.render.add_upstream_pins"
  | .finalizeMetadata => "conda_build.render.finalize_metadata"
  | .boaRender => "boa.api.render"
  | .boaBuild => "boa.api.build"

/-- The four external owner objects whose attributes the two modules patch:
`conda_build.api`, the class `conda_build.metadata.MetaData`,
`conda_build.render`, and `boa.cli.mambabuild.api`. -/
inductive Owner where
  | condaApi
  | condaMetaData
  | condaRender
  | boaApi
deriving DecidableEq, Repr

/-- The value held by an `(owner, attribute)` slot: either an original callable
(identified by reference, as a number), or a wrapt FunctionWrapper proxy
holding the wrapper and, as its `__wrapped__`, the value it replaced. -/
inductive AttrVal where
  | orig (f : Nat)
  | proxy (w : WrapperId) (inner : AttrVal)
deriving DecidableEq, Repr

/-- The attribute tables of the owner objects: reflective get by name. -/
def Modules : Type :=
  Owner → String → AttrVal

/-- Modelled from the spec: `wrapt.wrap_function_wrapper(owner, attribute,
wrapper)` replaces the live attribute with the wrapped version, recording the
original (as the proxy's `__wrapped__`) for later restoration; no other
`(owner, attribute)` slot changes. -/
def wrap_function_wrapper (m : Modules) (o : Owner) (a : String) (w : WrapperId) :
    Modules :=
  fun o' a' => if o' = o ∧ a' = a then .proxy w (m o a) else m o' a'

/-- Removing one proxy layer: a proxy yields its `__wrapped__`, anything else
is returned unchanged. -/
def strip1 : AttrVal → AttrVal
  | .proxy _ inner => inner
  | .orig f => .orig f

/-- Modelled from the spec: `opentelemetry.instrumentation.utils.unwrap(owner,
attribute)` restores the proxy's `__wrapped__` to the slot when the current
value is a wrapt proxy, and otherwise does nothing — reverting an
already-reverted or never-applied record is a no-op, never a fault. -/
def unwrap (m : Modules) (o : Owner) (a : String) : Modules :=
  match m o a with
  | .proxy _ inner => fun o' a' => if o' = o ∧ a' = a then inner else m o' a'
  | .orig _ => m

/-- Modelled from the spec: `TraceContextTextMapPropagator().extract(carrier)`
extracts a parent trace context from a mapping holding a single trace-parent
string; a missing value yields an empty (detached) context. -/
def extractContext (carrier : List (String × Option String)) : Parent :=
  match carrier.lookup "traceparent" with
  | some (some tp) => .remote tp
  | _ => .detached

/-- Modelled from the spec: `tracer.start_span(name, context=ctx)` starts a
span parented to the supplied extracted context, without installing it as the
current/ambient context, and returns the span. -/
def start_span (name : String) (ctx : Parent) (s : TraceState) : Nat × TraceState :=
  (s.nextId,
   { s with
     nextId := s.nextId + 1
     events := s.events ++ [.startSpan s.nextId name .internal ctx] })

/-- Modelled from the spec: `Span.end()` emits one end event for the span. -/
def endSpan (s : TraceState) (sid : Nat) : TraceState :=
  { s with events := s.events ++ [.endSpan sid false] }

/-- The state owned by a `CondaBuildInstrumentor` instance: the patched module
tables, the `root_span` field (initially `None`), and the tracer state. -/
structure CondaState where
  modules : Modules
  root_span : Option Nat
  trace : TraceState

/-- Method `CondaBuildInstrumentor._instrument`: builds the carrier from the single
`TRACEPARENT` environment key, extracts a context from it, starts the root
span "conda-build root process" parented to that context, stores it in
`root_span`, then wraps the twelve targets in source order. -/
def condaInstrument (env : String → Option String) (s : CondaState) : CondaState :=
  let carrier : List (String × Option String) := [("traceparent", env "TRACEPARENT")]
  let ctx := extractContext carrier
  let r := start_span "conda-build root process" ctx s.trace
  let m := s.modules
  let m := wrap_function_wrapper m .condaApi "render" .render
  let m := wrap_function_wrapper m .condaApi "build" .build
  let m := wrap_function_wrapper m .condaMetaData "_get_contents" .getContents
  let m := wrap_function_wrapper m .condaMetaData "parse_again" .parseAgain
  let m := wrap_function_wrapper m .condaMetaData "get_recipe_text" .getRecipeText
  let m := wrap_function_wrapper m .condaMetaData "get_output_metadata" .getOutputMetadata
  let m := wrap_function_wrapper m .condaMetaData "get_used_vars" .getUsedVars
  let m := wrap_function_wrapper m .condaRender "get_env_dependencies" .getEnvDependencies
  let m := wrap_function_wrapper m .condaRender "execute_download_actions" .executeDownloadActions
  let m := wrap_function_wrapper m .condaRender "get_upstream_pins" .getUpstreamPins
  let m := wrap_function_wrapper m .condaRender "add_upstream_pins" .addUpstreamPins
  let m := wrap_function_wrapper m .condaRender "finalize_metadata" .finalizeMetadata
  { modules := m, root_span := some r.1, trace := r.2 }

/-- The unwrap sequence of `CondaBuildInstrumentor._uninstrument`: it unwraps
only the five `MetaData` methods, in source order. -/
def condaUnwrapAll (m : Modules) : Modules :=
  let m := unwrap m .condaMetaData "parse_again"
  let m := unwrap m .condaMetaData "_get_contents"
  let m := unwrap m .condaMetaData "get_recipe_text"
  let m := unwrap m .condaMetaData "get_output_metadata"
  unwrap m .condaMetaData "get_used_vars"

/-- Method `CondaBuildInstrumentor._uninstrument`: runs the unwrap sequence, then
`if self.root_span: self.root_span.end()` — the `root_span` field itself is
never cleared. -/
def condaUninstrument (s : CondaState) : CondaState :=
  let m := condaUnwrapAll s.modules
  match s.root_span with
  | some sid => { modules := m, root_span := some sid, trace := endSpan s.trace sid }
  | none => { modules := m, root_span := none, trace := s.trace }

/-- Method `BoaInstrumentor._instrument`: wraps `render` with `_wrap_render` and
`build` with `_wrap_build` on `boa.cli.mambabuild.api`. -/
def boaInstrument (m : Modules) : Modules :=
  let m := wrap_function_wrapper m .boaApi "render" .boaRender
  wrap_function_wrapper m .boaApi "build" .boaBuild

/-- Method `BoaInstrumentor._uninstrument`: unwraps both wrapped attributes. -/
def boaUnwrapAll (m : Modules) : Modules :=
  let m := unwrap m .boaApi "render"
  unwrap m .boaApi "build"

/-- An attribute value that is not a proxy over a proxy — the shape every slot
has in any state reachable by the instrumentors, which wrap each target at
most once. -/
def singleLayer : AttrVal → Prop
  | .proxy _ (.proxy _ _) => False
  | _ => True

instance (v : AttrVal) : Decidable (singleLayer v) := by
  unfold singleLayer
  cases v with
  | orig f => exact inferInstanceAs (Decidable True)
  | proxy w inner =>
    cases inner with
    | orig f => exact inferInstanceAs (Decidable True)
    | proxy w2 i2 => exact inferInstanceAs (Decidable False)

/-- The event predicates used to phrase the claims. -/
def isStart : Event → Bool
  | .startSpan _ _ _ _ => true
  | _ => false

def isEnd : Event → Bool
  | .endSpan _ _ => true
  | _ => false

def isCall : Event → Bool
  | .callOriginal _ _ => true
  | _ => false

def isSetAttr : Event → Bool
  | .setAttribute _ _ _ => true
  | _ => false

/- ### Helper lemmas (shared across the claims) -/

theorem unwrap_apply (m : Modules) (o : Owner) (a : String) (o' : Owner) (a' : String) :
    unwrap m o a o' a' = if o' = o ∧ a' = a then strip1 (m o a) else m o' a' := by
  rcases h : m o a with f | ⟨w, inner⟩
  · simp only [unwrap, h, strip1]
    by_cases hc : o' = o ∧ a' = a
    · rw [if_pos hc, hc.1, hc.2, h]
    · rw [if_neg hc]
  · simp only [unwrap, h, strip1]

theorem singleLayer_strip1 (v : AttrVal) (h : singleLayer v) :
    strip1 (strip1 v) = strip1 v := by
  rcases v with f | ⟨w, inner⟩
  · rfl
  · rcases inner with f | ⟨w2, i2⟩
    · rfl
    · exact absurd h (by simp [singleLayer])

/-- Every wrapper function is the canonical span-around-call shape for its
span name (the `pass`-only `is_recording` branches contribute nothing). -/
theorem wrapperOf_eq (w : WrapperId) (f : Original) (inst : Nat) (args : List Nat)
    (kwargs : List (String × Nat)) (s : TraceState) :
    wrapperOf w f inst args kwargs s =
      startAsCurrentSpan (wrapperSpanName w) .internal
        (fun _ s1 => invokeOriginal f args kwargs s1) s := by
  cases w <;>
    simp only [wrapperOf, wrapperSpanName, CondaBuild._wrap_render, CondaBuild._wrap_build,
      CondaBuild._wrap_get_contents, CondaBuild._wrap_parse_again,
      CondaBuild._wrap_get_recipe_text, CondaBuild._wrap_get_output_metadata,
      CondaBuild._wrap_get_used_vars, CondaBuild._wrap_get_env_dependencies,
      CondaBuild._wrap_execute_download_actions, CondaBuild._wrap_get_upstream_pins,
      CondaBuild._wrap_add_upstream_pins, CondaBuild._wrap_finalize_metadata,
      Boa._wrap_render, Boa._wrap_build, ite_self]

/-- Canonical evaluation of a wrapper run when the original returns normally. -/
theorem run_ok (nm : String) (k : SpanKind) (f : Original) (args : List Nat)
    (kwargs : List (String × Nat)) (s : TraceState) (v : Nat)
    (h : f args kwargs = .ok v) :
    startAsCurrentSpan nm k (fun _ s1 => invokeOriginal f args kwargs s1) s =
      (.ok v,
       { s with
         nextId := s.nextId + 1
         events := s.events ++
           [.startSpan s.nextId nm k (ambientParent s), .callOriginal args kwargs,
            .endSpan s.nextId false] }) := by
  simp [startAsCurrentSpan, invokeOriginal, h]

/-- Canonical evaluation of a wrapper run when the original raises. -/
theorem run_exn (nm : String) (k : SpanKind) (f : Original) (args : List Nat)
    (kwargs : List (String × Nat)) (s : TraceState) (e : Exc)
    (h : f args kwargs = .exn e) :
    startAsCurrentSpan nm k (fun _ s1 => invokeOriginal f args kwargs s1) s =
      (.exn e,
       { s with
         nextId := s.nextId + 1
         events := s.events ++
           [.startSpan s.nextId nm k (ambientParent s), .callOriginal args kwargs,
            .recordException s.nextId e.ty e.msg, .endSpan s.nextId true] }) := by
  simp [startAsCurrentSpan, invokeOriginal, h]

/-- Among span-start events, a wrapper run adds exactly one, named after its
operation, of kind INTERNAL, parented to the ambient active span. -/
theorem filter_start_run (w : WrapperId) (f : Original) (inst : Nat) (args : List Nat)
    (kwargs : List (String × Nat)) (s : TraceState) :
    (wrapperOf w f inst args kwargs s).2.events.filter isStart =
      s.events.filter isStart ++
        [.startSpan s.nextId (wrapperSpanName w) .internal (ambientParent s)] := by
  rw [wrapperOf_eq]
  rcases hf : f args kwargs with v | e
  · rw [run_ok _ _ _ _ _ _ _ hf]
    simp [isStart, List.filter_append]
  · rw [run_exn _ _ _ _ _ _ _ hf]
    simp [isStart, List.filter_append]

/-- Pointwise characterisation of conda-build's unwrap sequence: it strips one
proxy layer from exactly the five `MetaData` slots. -/
theorem condaUnwrapAll_apply (m : Modules) (o : Owner) (a : String) :
    condaUnwrapAll m o a =
      if o = Owner.condaMetaData ∧
          (a = "parse_again" ∨ a = "_get_contents" ∨ a = "get_recipe_text" ∨
           a = "get_output_metadata" ∨ a = "get_used_vars")
      then strip1 (m o a) else m o a := by
  by_cases ho : o = Owner.condaMetaData
  · subst ho
    by_cases h1 : a = "parse_again"
    · subst h1
      simp +decide [condaUnwrapAll, unwrap_apply]
    · by_cases h2 : a = "_get_contents"
      · subst h2
        simp +decide [condaUnwrapAll, unwrap_apply]
      · by_cases h3 : a = "get_recipe_text"
        · subst h3
          simp +decide [condaUnwrapAll, unwrap_apply]
        · by_cases h4 : a = "get_output_metadata"
          · subst h4
            simp +decide [condaUnwrapAll, unwrap_apply]
          · by_cases h5 : a = "get_used_vars"
            · subst h5
              simp +decide [condaUnwrapAll, unwrap_apply]
            · simp [condaUnwrapAll, unwrap_apply, h1, h2, h3, h4, h5]
  · simp [condaUnwrapAll, unwrap_apply, ho]

/-- Pointwise characterisation of boa's unwrap sequence: it strips one proxy
layer from exactly the two `api` slots. -/
theorem boaUnwrapAll_apply (m : Modules) (o : Owner) (a : String) :
    boaUnwrapAll m o a =
      if o = Owner.boaApi ∧ (a = "render" ∨ a = "build")
      then strip1 (m o a) else m o a := by
  by_cases ho : o = Owner.boaApi
  · subst ho
    by_cases h1 : a = "render"
    · subst h1
      simp +decide [boaUnwrapAll, unwrap_apply]
    · by_cases h2 : a = "build"
      · subst h2
        simp +decide [boaUnwrapAll, unwrap_apply]
      · simp [boaUnwrapAll, unwrap_apply, h1, h2]
  · simp [boaUnwrapAll, unwrap_apply, ho]

/-- A fresh tracer state. -/
def t0 : TraceState :=
  { nextId := 0, ambient := [], recording := true, events := [] }

/-- A concrete pre-instrumentation state: every attribute slot holds an
original callable (reference id 0), root_span is `None`, fresh tracer state. -/
def conda0 : CondaState :=
  { modules := fun _ _ => .orig 0
    root_span := none
    trace := t0 }

/- ### Claim theorems -/

/-- C1: the claim says `_uninstrument` restores all twelve wrapped targets of
the conda-build instrumentor to their original callables.  Evaluating the code
at a concrete pre-instrumentation state shows the opposite: after
`_instrument` then `_uninstrument`, the five `MetaData` methods are restored,
but `conda_build.api.render`, `conda_build.api.build` and the five
`conda_build.render` functions are still the wrapt proxies — `_uninstrument`
never unwraps them. -/
theorem conda_uninstrument_leaves_seven_wrapped :
    (condaUninstrument (condaInstrument (fun _ => none) conda0)).modules
        Owner.condaApi "render" = .proxy .render (.orig 0) ∧
    (condaUninstrument (condaInstrument (fun _ => none) conda0)).modules
        Owner.condaApi "build" = .proxy .build (.orig 0) ∧
    (condaUninstrument (condaInstrument (fun _ => none) conda0)).modules
        Owner.condaRender "get_env_dependencies" = .proxy .getEnvDependencies (.orig 0) ∧
    (condaUninstrument (condaInstrument (fun _ => none) conda0)).modules
        Owner.condaRender "execute_download_actions" = .proxy .executeDownloadActions (.orig 0) ∧
    (condaUninstrument (condaInstrument (fun _ => none) conda0)).modules
        Owner.condaRender "get_upstream_pins" = .proxy .getUpstreamPins (.orig 0) ∧
    (condaUninstrument (condaInstrument (fun _ => none) conda0)).modules
        Owner.condaRender "add_upstream_pins" = .proxy .addUpstreamPins (.orig 0) ∧
    (condaUninstrument (condaInstrument (fun _ => none) conda0)).modules
        Owner.condaRender "finalize_metadata" = .proxy .finalizeMetadata (.orig 0) ∧
    (condaUninstrument (condaInstrument (fun _ => none) conda0)).modules
        Owner.condaMetaData "_get_contents" = .orig 0 ∧
    (condaUninstrument (condaInstrument (fun _ => none) conda0)).modules
        Owner.condaMetaData "parse_again" = .orig 0 ∧
    (condaUninstrument (condaInstrument (fun _ => none) conda0)).modules
        Owner.condaMetaData "get_recipe_text" = .orig 0 ∧
    (condaUninstrument (condaInstrument (fun _ => none) conda0)).modules
        Owner.condaMetaData "get_output_metadata" = .orig 0 ∧
    (condaUninstrument (condaInstrument (fun _ => none) conda0)).modules
        Owner.condaMetaData "get_used_vars" = .orig 0 := by
  decide

/-- C2: for every wrapper function in both modules, all positional and keyword
arguments and every original callable, when the original returns normally the
wrapper invokes the original exactly once with the same arguments, unmodified
(among call events, exactly one is appended and it carries `args`/`kwargs`
verbatim), and returns exactly the original's return value. -/
theorem wrapper_forwards_and_returns (w : WrapperId) (f : Original) (inst : Nat)
    (args : List Nat) (kwargs : List (String × Nat)) (s : TraceState) (v : Nat)
    (h : f args kwargs = .ok v) :
    (wrapperOf w f inst args kwargs s).1 = .ok v ∧
    (wrapperOf w f inst args kwargs s).2.events.filter isCall =
      s.events.filter isCall ++ [.callOriginal args kwargs] := by
  rw [wrapperOf_eq, run_ok _ _ _ _ _ _ _ h]
  refine ⟨rfl, ?_⟩
  simp [isCall, List.filter_append]

/-- Witness for C2 at a concrete wrapper, arguments and original. -/
theorem wrapper_forwards_and_returns_witness :
    (wrapperOf .render (fun _ _ => .ok 42) 0 [1, 2] [("k", 3)] t0).1 = .ok 42 ∧
    (wrapperOf .render (fun _ _ => .ok 42) 0 [1, 2] [("k", 3)] t0).2.events.filter isCall =
      t0.events.filter isCall ++ [.callOriginal [1, 2] [("k", 3)]] :=
  wrapper_forwards_and_returns .render (fun _ _ => .ok 42) 0 [1, 2] [("k", 3)] t0 42 rfl

/-- C3: for every wrapper function and every exception raised by the original,
the wrapper records the failure on its span, ends the span with error status,
and re-raises the identical exception (same type and message) — the full event
suffix is exactly start, call, recordException with the exception's type and
message, and an errored end. -/
theorem wrapper_exception_transparent (w : WrapperId) (f : Original) (inst : Nat)
    (args : List Nat) (kwargs : List (String × Nat)) (s : TraceState) (e : Exc)
    (h : f args kwargs = .exn e) :
    (wrapperOf w f inst args kwargs s).1 = .exn e ∧
    (wrapperOf w f inst args kwargs s).2.events =
      s.events ++
        [.startSpan s.nextId (wrapperSpanName w) .internal (ambientParent s),
         .callOriginal args kwargs, .recordException s.nextId e.ty e.msg,
         .endSpan s.nextId true] := by
  rw [wrapperOf_eq, run_exn _ _ _ _ _ _ _ h]
  exact ⟨rfl, rfl⟩

/-- Witness for C3 at a concrete wrapper and a raising original. -/
theorem wrapper_exception_transparent_witness :
    (wrapperOf .build (fun _ _ => .exn ⟨"ValueError", "bad recipe"⟩) 0 [] [] t0).1 =
        .exn ⟨"ValueError", "bad recipe"⟩ ∧
    (wrapperOf .build (fun _ _ => .exn ⟨"ValueError", "bad recipe"⟩) 0 [] [] t0).2.events =
      t0.events ++
        [.startSpan t0.nextId (wrapperSpanName .build) .internal (ambientParent t0),
         .callOriginal [] [], .recordException t0.nextId "ValueError" "bad recipe",
         .endSpan t0.nextId true] :=
  wrapper_exception_transparent .build (fun _ _ => .exn ⟨"ValueError", "bad recipe"⟩)
    0 [] [] t0 ⟨"ValueError", "bad recipe"⟩ rfl

/-- C4: for every wrapped operation and every invocation, exactly one span is
started and that same span is ended exactly once, on both exit paths: among
span start/end events, the run appends exactly one start (with the fresh id)
and exactly one end carrying the same id, in that order, whether the original
returns or raises. -/
theorem wrapper_span_balanced (w : WrapperId) (f : Original) (inst : Nat)
    (args : List Nat) (kwargs : List (String × Nat)) (s : TraceState) :
    ∃ er : Bool,
      (wrapperOf w f inst args kwargs s).2.events.filter (fun e => isStart e || isEnd e) =
        s.events.filter (fun e => isStart e || isEnd e) ++
          [.startSpan s.nextId (wrapperSpanName w) .internal (ambientParent s),
           .endSpan s.nextId er] := by
  rw [wrapperOf_eq]
  rcases hf : f args kwargs with v | e
  · exact ⟨false, by rw [run_ok _ _ _ _ _ _ _ hf]; simp [isStart, isEnd, List.filter_append]⟩
  · exact ⟨true, by rw [run_exn _ _ _ _ _ _ _ hf]; simp [isStart, isEnd, List.filter_append]⟩

/-- C5: every wrapped operation is installed with its own dedicated wrapper —
all fourteen installed slots (the twelve conda-build targets and the two boa
targets) hold the proxy of the wrapper specific to that operation; every
wrapper starts a span whose name is its own operation's name with kind
INTERNAL, and distinct wrappers have distinct span names, so no slot is
served by another operation's wrapper; in particular the `build` attribute is
wrapped with the build-specific wrapper (span "conda_build.api.build" /
"boa.api.build"), never with the render wrapper. -/
theorem every_op_dedicated_wrapper :
    (∀ (w : WrapperId) (f : Original) (inst : Nat) (args : List Nat)
        (kwargs : List (String × Nat)) (s : TraceState),
      (wrapperOf w f inst args kwargs s).2.events.filter isStart =
        s.events.filter isStart ++
          [.startSpan s.nextId (wrapperSpanName w) .internal (ambientParent s)]) ∧
    (∀ w w' : WrapperId, wrapperSpanName w = wrapperSpanName w' → w = w') ∧
    wrapperSpanName .build = "conda_build.api.build" ∧
    wrapperSpanName .boaBuild = "boa.api.build" ∧
    wrapperSpanName .render = "conda_build.api.render" ∧
    wrapperSpanName .boaRender = "boa.api.render" ∧
    WrapperId.build ≠ WrapperId.render ∧
    WrapperId.boaBuild ≠ WrapperId.boaRender ∧
    (∀ (env : String → Option String) (s : CondaState),
      (condaInstrument env s).modules Owner.condaApi "render" =
        .proxy .render (s.modules Owner.condaApi "render") ∧
      (condaInstrument env s).modules Owner.condaApi "build" =
        .proxy .build (s.modules Owner.condaApi "build") ∧
      (condaInstrument env s).modules Owner.condaMetaData "_get_contents" =
        .proxy .getContents (s.modules Owner.condaMetaData "_get_contents") ∧
      (condaInstrument env s).modules Owner.condaMetaData "parse_again" =
        .proxy .parseAgain (s.modules Owner.condaMetaData "parse_again") ∧
      (condaInstrument env s).modules Owner.condaMetaData "get_recipe_text" =
        .proxy .getRecipeText (s.modules Owner.condaMetaData "get_recipe_text") ∧
      (condaInstrument env s).modules Owner.condaMetaData "get_output_metadata" =
        .proxy .getOutputMetadata (s.modules Owner.condaMetaData "get_output_metadata") ∧
      (condaInstrument env s).modules Owner.condaMetaData "get_used_vars" =
        .proxy .getUsedVars (s.modules Owner.condaMetaData "get_used_vars") ∧
      (condaInstrument env s).modules Owner.condaRender "get_env_dependencies" =
        .proxy .getEnvDependencies (s.modules Owner.condaRender "get_env_dependencies") ∧
      (condaInstrument env s).modules Owner.condaRender "execute_download_actions" =
        .proxy .executeDownloadActions (s.modules Owner.condaRender "execute_download_actions") ∧
      (condaInstrument env s).modules Owner.condaRender "get_upstream_pins" =
        .proxy .getUpstreamPins (s.modules Owner.condaRender "get_upstream_pins") ∧
      (condaInstrument env s).modules Owner.condaRender "add_upstream_pins" =
        .proxy .addUpstreamPins (s.modules Owner.condaRender "add_upstream_pins") ∧
      (condaInstrument env s).modules Owner.condaRender "finalize_metadata" =
        .proxy .finalizeMetadata (s.modules Owner.condaRender "finalize_metadata")) ∧
    (∀ m : Modules,
      boaInstrument m Owner.boaApi "render" = .proxy .boaRender (m Owner.boaApi "render") ∧
      boaInstrument m Owner.boaApi "build" = .proxy .boaBuild (m Owner.boaApi "build")) := by
  refine ⟨filter_start_run, by decide, rfl, rfl, rfl, rfl, by decide, by decide, ?_, ?_⟩
  · intro env s
    refine ⟨?_, ?_, ?_, ?_, ?_, ?_, ?_, ?_, ?_, ?_, ?_, ?_⟩ <;>
      simp +decide [condaInstrument, wrap_function_wrapper]
  · intro m
    refine ⟨?_, ?_⟩ <;> simp +decide [boaInstrument, wrap_function_wrapper]

/-- C6: `_instrument` reads the single TRACEPARENT key from the environment
into a carrier, extracts a parent trace context from it, and starts exactly
one root span parented to that context (storing it in `root_span`);
`_uninstrument` ends that root span exactly when it is present. -/
theorem conda_root_span_lifecycle (env : String → Option String) (s : CondaState) :
    (condaInstrument env s).root_span = some s.trace.nextId ∧
    (condaInstrument env s).trace.events =
      s.trace.events ++
        [.startSpan s.trace.nextId "conda-build root process" .internal
          (extractContext [("traceparent", env "TRACEPARENT")])] ∧
    (extractContext [("traceparent", env "TRACEPARENT")] =
      match env "TRACEPARENT" with
      | some tp => .remote tp
      | none => .detached) ∧
    ((condaUninstrument s).trace.events =
      s.trace.events ++
        (match s.root_span with
         | some r => [.endSpan r false]
         | none => [])) := by
  refine ⟨rfl, ?_, ?_, ?_⟩
  · simp [condaInstrument, start_span]
  · rcases h : env "TRACEPARENT" with _ | tp <;> simp [extractContext, h, List.lookup]
  · rcases h : s.root_span with _ | r <;> simp [condaUninstrument, h, endSpan]

/-- C7: the revert sequences are idempotent — running `_uninstrument`'s unwrap
sequence a second time in a row raises no error (it is a total function) and
leaves every `(owner, attribute)` slot unchanged, for any module state whose
targeted slots are not double-wrapped (the only shape the instrumentors
produce, since each wraps every target exactly once). -/
theorem revert_twice_noop (m : Modules)
    (h1 : singleLayer (m Owner.condaMetaData "parse_again"))
    (h2 : singleLayer (m Owner.condaMetaData "_get_contents"))
    (h3 : singleLayer (m Owner.condaMetaData "get_recipe_text"))
    (h4 : singleLayer (m Owner.condaMetaData "get_output_metadata"))
    (h5 : singleLayer (m Owner.condaMetaData "get_used_vars"))
    (h6 : singleLayer (m Owner.boaApi "render"))
    (h7 : singleLayer (m Owner.boaApi "build")) :
    (∀ (o : Owner) (a : String),
      condaUnwrapAll (condaUnwrapAll m) o a = condaUnwrapAll m o a) ∧
    (∀ (o : Owner) (a : String),
      boaUnwrapAll (boaUnwrapAll m) o a = boaUnwrapAll m o a) := by
  constructor
  · intro o a
    rw [condaUnwrapAll_apply, condaUnwrapAll_apply]
    by_cases hc : o = Owner.condaMetaData ∧
        (a = "parse_again" ∨ a = "_get_contents" ∨ a = "get_recipe_text" ∨
         a = "get_output_metadata" ∨ a = "get_used_vars")
    · simp only [if_pos hc]
      obtain ⟨ho, ha⟩ := hc
      subst ho
      rcases ha with h | h | h | h | h <;> subst h
      · exact singleLayer_strip1 _ h1
      · exact singleLayer_strip1 _ h2
      · exact singleLayer_strip1 _ h3
      · exact singleLayer_strip1 _ h4
      · exact singleLayer_strip1 _ h5
    · simp only [if_neg hc]
  · intro o a
    rw [boaUnwrapAll_apply, boaUnwrapAll_apply]
    by_cases hc : o = Owner.boaApi ∧ (a = "render" ∨ a = "build")
    · simp only [if_pos hc]
      obtain ⟨ho, ha⟩ := hc
      subst ho
      rcases ha with h | h <;> subst h
      · exact singleLayer_strip1 _ h6
      · exact singleLayer_strip1 _ h7
    · simp only [if_neg hc]

/-- Witness for C7 at the module state produced by instrumenting both modules
over the concrete initial state. -/
theorem revert_twice_noop_witness :
    (∀ (o : Owner) (a : String),
      condaUnwrapAll
          (condaUnwrapAll (boaInstrument (condaInstrument (fun _ => none) conda0).modules))
          o a =
        condaUnwrapAll (boaInstrument (condaInstrument (fun _ => none) conda0).modules) o a) ∧
    (∀ (o : Owner) (a : String),
      boaUnwrapAll
          (boaUnwrapAll (boaInstrument (condaInstrument (fun _ => none) conda0).modules))
          o a =
        boaUnwrapAll (boaInstrument (condaInstrument (fun _ => none) conda0).modules) o a) :=
  revert_twice_noop (boaInstrument (condaInstrument (fun _ => none) conda0).modules)
    (by decide) (by decide) (by decide) (by decide) (by decide) (by decide) (by decide)

/-- C8: the root span is started with `tracer.start_span` and never installed
as the current/ambient context — `_instrument` leaves the ambient stack empty
when it was empty, so any wrapped operation invoked outside any other active
span starts a span with no parent at all, which in particular is not a child
of the root span (whose id `_instrument` stored in `root_span`). -/
theorem root_span_never_ambient (env : String → Option String) (s : CondaState)
    (h : s.trace.ambient = []) :
    (condaInstrument env s).trace.ambient = [] ∧
    (condaInstrument env s).root_span = some s.trace.nextId ∧
    (∀ (w : WrapperId) (f : Original) (inst : Nat) (args : List Nat)
        (kwargs : List (String × Nat)),
      (wrapperOf w f inst args kwargs (condaInstrument env s).trace).2.events.filter isStart =
        (condaInstrument env s).trace.events.filter isStart ++
          [.startSpan (condaInstrument env s).trace.nextId (wrapperSpanName w) .internal
            .detached]) ∧
    Parent.detached ≠ Parent.span s.trace.nextId := by
  have hamb : (condaInstrument env s).trace.ambient = [] := by
    simp [condaInstrument, start_span, h]
  refine ⟨hamb, rfl, ?_, by simp⟩
  intro w f inst args kwargs
  have := filter_start_run w f inst args kwargs (condaInstrument env s).trace
  rwa [show ambientParent (condaInstrument env s).trace = .detached by
    simp [ambientParent, hamb]] at this

/-- Witness for C8 at a concrete environment and initial state. -/
theorem root_span_never_ambient_witness :
    (condaInstrument (fun _ => none) conda0).trace.ambient = [] ∧
    (condaInstrument (fun _ => none) conda0).root_span = some conda0.trace.nextId ∧
    (∀ (w : WrapperId) (f : Original) (inst : Nat) (args : List Nat)
        (kwargs : List (String × Nat)),
      (wrapperOf w f inst args kwargs
            (condaInstrument (fun _ => none) conda0).trace).2.events.filter isStart =
        (condaInstrument (fun _ => none) conda0).trace.events.filter isStart ++
          [.startSpan (condaInstrument (fun _ => none) conda0).trace.nextId
            (wrapperSpanName w) .internal .detached]) ∧
    Parent.detached ≠ Parent.span conda0.trace.nextId :=
  root_span_never_ambient (fun _ => none) conda0 rfl

/-- C9: `_uninstrument` never resets the `root_span` field after ending the
span, so a second `_uninstrument` calls `end()` again on the same already-ended
root span: starting from any state holding a root span, two `_uninstrument`
calls leave the field set and append two end events for the same span id. -/
theorem uninstrument_twice_ends_root_again (s : CondaState) (r : Nat)
    (h : s.root_span = some r) :
    (condaUninstrument s).root_span = some r ∧
    (condaUninstrument (condaUninstrument s)).root_span = some r ∧
    (condaUninstrument (condaUninstrument s)).trace.events =
      s.trace.events ++ [.endSpan r false, .endSpan r false] := by
  refine ⟨?_, ?_, ?_⟩ <;> simp [condaUninstrument, h, endSpan]

/-- Witness for C9 at the state produced by instrumenting the concrete initial
state (whose root span has id 0). -/
theorem uninstrument_twice_ends_root_again_witness :
    (condaUninstrument (condaInstrument (fun _ => none) conda0)).root_span = some 0 ∧
    (condaUninstrument (condaUninstrument
        (condaInstrument (fun _ => none) conda0))).root_span = some 0 ∧
    (condaUninstrument (condaUninstrument
        (condaInstrument (fun _ => none) conda0))).trace.events =
      (condaInstrument (fun _ => none) conda0).trace.events ++
        [.endSpan 0 false, .endSpan 0 false] :=
  uninstrument_twice_ends_root_again (condaInstrument (fun _ => none) conda0) 0 rfl

/-- C10: no wrapper ever sets an attribute on its span — the run appends no
`setAttribute` event — and the `is_recording()` branch has no observable
effect: the outcome and the event log of any wrapper run are unchanged when
the recording flag is flipped. -/
theorem recording_branch_inert (w : WrapperId) (f : Original) (inst : Nat)
    (args : List Nat) (kwargs : List (String × Nat)) (t : TraceState) (b b' : Bool) :
    (wrapperOf w f inst args kwargs { t with recording := b }).1 =
      (wrapperOf w f inst args kwargs { t with recording := b' }).1 ∧
    (wrapperOf w f inst args kwargs { t with recording := b }).2.events =
      (wrapperOf w f inst args kwargs { t with recording := b' }).2.events ∧
    (wrapperOf w f inst args kwargs t).2.events.filter isSetAttr =
      t.events.filter isSetAttr := by
  rcases hf : f args kwargs with v | e
  · rw [wrapperOf_eq, wrapperOf_eq, wrapperOf_eq, run_ok _ _ _ _ _ _ _ hf,
      run_ok _ _ _ _ _ _ _ hf, run_ok _ _ _ _ _ _ _ hf]
    refine ⟨rfl, rfl, ?_⟩
    simp [isSetAttr, List.filter_append]
  · rw [wrapperOf_eq, wrapperOf_eq, wrapperOf_eq, run_exn _ _ _ _ _ _ _ hf,
      run_exn _ _ _ _ _ _ _ hf, run_exn _ _ _ _ _ _ _ hf]
    refine ⟨rfl, rfl, ?_⟩
    simp [isSetAttr, List.filter_append]

end CondaOtel
